import Mathlib

/-!
Shallow embedding of `src/main.py`: a webapp2 application with two request
handlers, `AlbumsHandler` (fetches a JSON manifest of photo albums and
renders it) and `ThumbnailHandler` (proxies thumbnail fetches to the
Dropbox content API behind a path guard).  The framework (`webapp2.abort`,
routing, the Jinja template) is treated as an external collaborator, per
the spec: `abort(status)` is modelled as a response with that status and
an empty body, and the rendered page is modelled by the processed
configuration object handed to the template.
-/

/-- The hardcoded bearer credential from `main.py` (constant `ACCESS_TOKEN`). -/
def ACCESS_TOKEN : String := "wThl210Kpx4AAAAAAAA749UieNrexm9F5VJ3eOdrEB0X5I_LmiDjQ2FT7gMolnEl"

/-- Fixed upstream base for thumbnails, from `ThumbnailHandler.get`. -/
def THUMBNAIL_BASE : String := "https://api-content.dropbox.com/1/thumbnails/auto/"

/-- `self.uri_for('thumbnail')`: the path of the route named `thumbnail`
in the application's route table. -/
def thumbnailRoutePath : String := "/albums/thumbnail"

/-- Python `str.startswith`: the argument list is an initial segment of the
string's characters. -/
def strStartsWith (s pat : String) : Bool := pat.data.isPrefixOf s.data

/-- Substring containment on character lists: the needle occurs as a
contiguous run, checked at every suffix. -/
def listContains (n : List Char) : List Char → Bool
  | [] => n.isEmpty
  | c :: rest => n.isPrefixOf (c :: rest) || listContains n rest

/-- Python `in` on strings: substring containment. -/
def containsSub (needle hay : String) : Bool := listContains needle.data hay.data

/-- Characters that Python 2 `urllib.quote` leaves untouched with the default
`safe` argument: ASCII letters, digits, `_`, `.`, `-`, and the safe `/`. -/
def quoteSafe (c : Char) : Bool :=
  c.isAlpha || c.isDigit || c = '_' || c = '.' || c = '-' || c = '/'

/-- Uppercase hexadecimal digit for a value below 16. -/
def hexDigit (n : Nat) : Char :=
  if n < 10 then Char.ofNat (48 + n) else Char.ofNat (55 + n)

/-- One character of Python 2 `urllib.quote`: kept if safe, otherwise
percent-encoded as `%XX` with uppercase hex. -/
def quoteChar (c : Char) : String :=
  if quoteSafe c then String.singleton c
  else "%" ++ String.singleton (hexDigit (c.toNat / 16 % 16))
           ++ String.singleton (hexDigit (c.toNat % 16))

/-- Python 2 `urllib.quote` with the default `safe` set, over byte-range
characters. -/
def quote (s : String) : String := String.join (s.data.map quoteChar)

/-- The outbound request issued by `urlfetch.fetch` in `ThumbnailHandler.get`:
a URL and the single `Authorization` header value. -/
structure UpstreamRequest where
  url : String
  authorization : String
deriving DecidableEq

/-- The upstream response as consumed by `ThumbnailHandler.get`:
`rsp.status_code`, `rsp.headers['Content-Type']`, and the body bytes
`rsp.content`. -/
structure FetchResponse where
  status_code : Nat
  contentType : String
  content : List Nat
deriving DecidableEq

/-- The handler's outbound HTTP response together with the upstream request
it issued (if any), for observing the proxy behaviour. -/
structure ThumbnailResponse where
  status : Nat
  contentType : Option String
  body : List Nat
  upstreamRequest : Option UpstreamRequest
deriving DecidableEq

/-- The upstream request built in `ThumbnailHandler.get` for a guarded path:
`os.path.join(base, quote(path)) + '?size=l'` with the bearer header.  The
base ends in `/` and the quoted path begins with `p`, so the join is plain
concatenation. -/
def thumbnailRequest (p : String) : UpstreamRequest :=
  { url := THUMBNAIL_BASE ++ quote p ++ "?size=l"
    authorization := "Bearer " ++ ACCESS_TOKEN }

/-- `ThumbnailHandler.get`.  `path` is `self.request.GET.get('path')`
(`none` when the parameter is absent); `upstream` is the external
`urlfetch.fetch` collaborator. -/
def thumbnailGet (path : Option String) (upstream : UpstreamRequest → FetchResponse) :
    ThumbnailResponse :=
  match path with
  | none =>
      { status := 400, contentType := none, body := [], upstreamRequest := none }
  | some src_path =>
      if strStartsWith src_path "photos" then
        let req := thumbnailRequest src_path
        let rsp := upstream req
        if rsp.status_code = 200 then
          { status := 200, contentType := some rsp.contentType
            body := rsp.content, upstreamRequest := some req }
        else
          { status := rsp.status_code, contentType := none, body := []
            upstreamRequest := some req }
      else
        { status := 403, contentType := none, body := [], upstreamRequest := none }

/-- One album object of the manifest, as a record of optional fields: a
JSON dict may lack any key, and the derived fields start absent. -/
structure Album where
  url : Option String
  cover_path : Option String
  cover_url : Option String := none
  icon : Option String := none
  icon_alt : Option String := none
  icon_height : Option String := none
deriving DecidableEq

/-- The first statement of the per-album loop in `AlbumsHandler.get`:
when `'cover_path' in album`, set `album['cover_url']` from the thumbnail
route and the quoted cover path. -/
def coverPass (a : Album) : Album :=
  match a.cover_path with
  | some cp => { a with cover_url := some (thumbnailRoutePath ++ "?path=" ++ quote cp) }
  | none => a

/-- The icon branch of the per-album loop, given the value of `album['url']`. -/
def setIcons (u : String) (a : Album) : Album :=
  if containsSub "dropbox.com" u then
    { a with icon := some "/images/dropbox-icon.png"
             icon_alt := some "Dropbox"
             icon_height := some "40px" }
  else if containsSub "plus.google.com" u then
    { a with icon := some "/images/gplus-icon.svg"
             icon_alt := some "Google+"
             icon_height := some "32px" }
  else a

/-- One iteration of the per-album loop of `AlbumsHandler.get`: the cover
pass, then the unguarded read of `album['url']` (a `KeyError` when the key
is absent), then the icon branch. -/
def processAlbum (a : Album) : Except String Album :=
  match (coverPass a).url with
  | none => Except.error "KeyError: url"
  | some u => Except.ok (setIcons u (coverPass a))

/-- The whole per-album loop: sequential, stopping at the first uncaught
exception, as the Python `for` does. -/
def processAlbums : List Album → Except String (List Album)
  | [] => Except.ok []
  | a :: rest =>
      match processAlbum a with
      | Except.error e => Except.error e
      | Except.ok b =>
          match processAlbums rest with
          | Except.error e => Except.error e
          | Except.ok bs => Except.ok (b :: bs)

/-- The parsed manifest: `cfg['albums']`. -/
structure Config where
  albums : List Album
deriving DecidableEq

/-- Outcome of `urllib2.urlopen(CFG_URL)` followed by `json.load`:
an `HTTPError` with code and reason, a transport-level `URLError` with its
string form, or a parsed manifest. -/
inductive FetchResult where
  | httpError (code : Nat) (reason : String)
  | urlError (msg : String)
  | ok (cfg : Config)

/-- The response of `AlbumsHandler.get`: either the rendered template over
the processed manifest, or the inline error fragment written by
`show_error` — in both cases with the framework's default success status. -/
inductive AlbumsResult where
  | page (status : Nat) (cfg : Config)
  | errorPage (status : Nat) (body : String)
deriving DecidableEq

/-- `AlbumsHandler.get`, with the manifest fetch abstracted as its outcome.
An `Except.error` result models an uncaught Python exception escaping the
handler. -/
def albumsGet (fr : FetchResult) : Except String AlbumsResult :=
  match fr with
  | FetchResult.httpError c r =>
      Except.ok (AlbumsResult.errorPage 200
        ("<h3>Error!</h3><div>Failed to fetch albums list (http " ++
          toString c ++ ": " ++ r ++ ")</div>"))
  | FetchResult.urlError m =>
      Except.ok (AlbumsResult.errorPage 200
        ("<h3>Error!</h3><div>Failed to fetch albums list (" ++ m ++ ")</div>"))
  | FetchResult.ok cfg =>
      match processAlbums cfg.albums with
      | Except.error e => Except.error e
      | Except.ok l => Except.ok (AlbumsResult.page 200 { albums := l })

/-! Helper lemmas shared by the claim theorems. -/

/-- The cover pass never touches `url`. -/
lemma coverPass_url (a : Album) : (coverPass a).url = a.url := by
  unfold coverPass
  cases a.cover_path <;> rfl

/-- The cover pass never touches the icon fields. -/
lemma coverPass_icons (a : Album) :
    (coverPass a).icon = a.icon ∧ (coverPass a).icon_alt = a.icon_alt ∧
      (coverPass a).icon_height = a.icon_height := by
  unfold coverPass
  cases a.cover_path <;> exact ⟨rfl, rfl, rfl⟩

/-- The icon branch never touches `cover_url`. -/
lemma setIcons_cover_url (u : String) (a : Album) :
    (setIcons u a).cover_url = a.cover_url := by
  unfold setIcons
  by_cases h1 : containsSub "dropbox.com" u = true
  · simp [h1]
  · by_cases h2 : containsSub "plus.google.com" u = true
    · simp [h1, h2]
    · simp [h1, h2]

/-- When the guard passes, the handler issues exactly the fixed upstream
request for the path, whatever the upstream answers. -/
lemma thumbnailGet_request (p : String) (upstream : UpstreamRequest → FetchResponse)
    (h : strStartsWith p "photos" = true) :
    (thumbnailGet (some p) upstream).upstreamRequest = some (thumbnailRequest p) := by
  unfold thumbnailGet
  simp only [h, if_true]
  by_cases h2 : (upstream (thumbnailRequest p)).status_code = 200
  · simp [h2]
  · simp [h2]

/-- A single album is processed without exception exactly when it has a
`url` key. -/
lemma processAlbum_ok_iff (a : Album) :
    (∃ b, processAlbum a = Except.ok b) ↔ a.url.isSome := by
  unfold processAlbum
  rw [coverPass_url]
  cases h : a.url <;> simp

/-- An album with a missing `url` key raises the `KeyError` immediately. -/
lemma processAlbum_no_url (a : Album) (h : a.url = none) :
    processAlbum a = Except.error "KeyError: url" := by
  have hu : (coverPass a).url = none := by rw [coverPass_url, h]
  unfold processAlbum
  rw [hu]

/-- The loop succeeds exactly when every album has a `url` key. -/
lemma processAlbums_ok_iff (l : List Album) :
    (∃ l2, processAlbums l = Except.ok l2) ↔ ∀ a ∈ l, a.url.isSome := by
  induction l with
  | nil => simp [processAlbums]
  | cons a rest ih =>
    rcases hpa : processAlbum a with e | b
    · have hna : ¬ a.url.isSome = true := by
        rw [← processAlbum_ok_iff]
        rintro ⟨b, hb⟩
        rw [hpa] at hb
        exact Except.noConfusion hb
      simp only [processAlbums, hpa, List.forall_mem_cons]
      constructor
      · rintro ⟨l2, hl2⟩
        exact absurd hl2 (by simp)
      · rintro ⟨h1, -⟩
        exact absurd h1 hna
    · have hsa : a.url.isSome = true := (processAlbum_ok_iff a).mp ⟨b, hpa⟩
      constructor
      · rintro ⟨l2, hl2⟩
        refine List.forall_mem_cons.mpr ⟨hsa, ih.mp ?_⟩
        unfold processAlbums at hl2
        rw [hpa] at hl2
        rcases hpr : processAlbums rest with e2 | l3
        · rw [hpr] at hl2
          exact absurd hl2 (by simp)
        · exact ⟨l3, rfl⟩
      · intro hall
        rcases ih.mpr (fun a2 ha2 => hall a2 (List.mem_cons_of_mem _ ha2)) with ⟨l3, hl3⟩
        refine ⟨b :: l3, ?_⟩
        unfold processAlbums
        rw [hpa, hl3]

/-- When some album lacks a `url` key the loop raises exactly the `KeyError`. -/
lemma processAlbums_error (l : List Album) (h : ¬ ∀ a ∈ l, a.url.isSome) :
    processAlbums l = Except.error "KeyError: url" := by
  induction l with
  | nil => exact absurd (by simp) h
  | cons a rest ih =>
    rcases ha : a.url with _ | u
    · unfold processAlbums
      rw [processAlbum_no_url a ha]
    · have hsa : a.url.isSome = true := by rw [ha]; rfl
      rcases hpa : processAlbum a with e | b
      · have := (processAlbum_ok_iff a).mpr hsa
        rcases this with ⟨b, hb⟩
        rw [hpa] at hb
        exact absurd hb (by simp)
      · have hrest : ¬ ∀ a2 ∈ rest, a2.url.isSome := by
          intro hr
          exact h (List.forall_mem_cons.mpr ⟨hsa, hr⟩)
        unfold processAlbums
        rw [hpa, ih hrest]

/-- C1: a GET to the thumbnail route whose `path` parameter is present
(including the empty string) but does not start with the literal `photos`
is answered with HTTP 403, an empty body, and no upstream fetch. -/
theorem C1_thumbnail_guard_403 (p : String)
    (upstream : UpstreamRequest → FetchResponse)
    (h : strStartsWith p "photos" = false) :
    thumbnailGet (some p) upstream =
      { status := 403, contentType := none, body := [], upstreamRequest := none } := by
  unfold thumbnailGet
  simp [h]

/-- C1 witness: the spec's example path and the empty string are both
rejected with 403, empty body and no upstream fetch. -/
theorem C1_thumbnail_guard_403_witness :
    thumbnailGet (some "secrets/x")
        (fun _ => { status_code := 200, contentType := "image/jpeg", content := [1] }) =
      { status := 403, contentType := none, body := [], upstreamRequest := none } ∧
    thumbnailGet (some "")
        (fun _ => { status_code := 200, contentType := "image/jpeg", content := [1] }) =
      { status := 403, contentType := none, body := [], upstreamRequest := none } :=
  ⟨C1_thumbnail_guard_403 "secrets/x" _ (by decide),
   C1_thumbnail_guard_403 "" _ (by decide)⟩

/-- C2: a GET to the thumbnail route with no `path` query parameter at all
is answered with HTTP 400, an empty body, and no upstream fetch. -/
theorem C2_thumbnail_missing_path_400 (upstream : UpstreamRequest → FetchResponse) :
    thumbnailGet none upstream =
      { status := 400, contentType := none, body := [], upstreamRequest := none } := rfl

/-- C3: when the `path` passes the guard and the upstream fetch returns 200,
the handler answers 200 with the upstream Content-Type and the upstream body
bytes verbatim. -/
theorem C3_thumbnail_proxy_200 (p : String)
    (upstream : UpstreamRequest → FetchResponse)
    (h1 : strStartsWith p "photos" = true)
    (h2 : (upstream (thumbnailRequest p)).status_code = 200) :
    thumbnailGet (some p) upstream =
      { status := 200
        contentType := some (upstream (thumbnailRequest p)).contentType
        body := (upstream (thumbnailRequest p)).content
        upstreamRequest := some (thumbnailRequest p) } := by
  unfold thumbnailGet
  simp [h1, h2]

/-- C3 witness: a stubbed upstream returning 200, Content-Type image/jpeg
and body bytes [66, 66] is proxied verbatim. -/
theorem C3_thumbnail_proxy_200_witness :
    thumbnailGet (some "photos/x.jpg")
        (fun _ => { status_code := 200, contentType := "image/jpeg", content := [66, 66] }) =
      { status := 200, contentType := some "image/jpeg", body := [66, 66]
        upstreamRequest := some (thumbnailRequest "photos/x.jpg") } :=
  C3_thumbnail_proxy_200 "photos/x.jpg" _ (by decide) rfl

/-- C4: when the `path` passes the guard and the upstream fetch returns any
status other than 200, the handler propagates that status with no body. -/
theorem C4_thumbnail_proxy_error (p : String)
    (upstream : UpstreamRequest → FetchResponse)
    (h1 : strStartsWith p "photos" = true)
    (h2 : (upstream (thumbnailRequest p)).status_code ≠ 200) :
    thumbnailGet (some p) upstream =
      { status := (upstream (thumbnailRequest p)).status_code
        contentType := none, body := []
        upstreamRequest := some (thumbnailRequest p) } := by
  unfold thumbnailGet
  simp [h1, h2]

/-- C4 witness: a stubbed upstream returning 404 yields a 404 response with
no body. -/
theorem C4_thumbnail_proxy_error_witness :
    thumbnailGet (some "photos/missing.jpg")
        (fun _ => { status_code := 404, contentType := "", content := [] }) =
      { status := 404, contentType := none, body := []
        upstreamRequest := some (thumbnailRequest "photos/missing.jpg") } :=
  C4_thumbnail_proxy_error "photos/missing.jpg" _ (by decide) (by decide)

/-- C5: for a guarded `path` the upstream request issued is a GET to the
fixed base joined with the escaped path and the query `?size=l`, carrying
the bearer authorization header with the fixed token. -/
theorem C5_thumbnail_upstream_request (p : String)
    (upstream : UpstreamRequest → FetchResponse)
    (h : strStartsWith p "photos" = true) :
    (thumbnailGet (some p) upstream).upstreamRequest =
      some { url := "https://api-content.dropbox.com/1/thumbnails/auto/" ++
                      quote p ++ "?size=l"
             authorization := "Bearer " ++ ACCESS_TOKEN } := by
  rw [thumbnailGet_request p upstream h]
  rfl

/-- C5 witness: the fully evaluated upstream request for a concrete path. -/
theorem C5_thumbnail_upstream_request_witness :
    (thumbnailGet (some "photos/x.jpg")
        (fun _ => { status_code := 404, contentType := "", content := [] })).upstreamRequest =
      some { url := "https://api-content.dropbox.com/1/thumbnails/auto/" ++
                      quote "photos/x.jpg" ++ "?size=l"
             authorization := "Bearer " ++ ACCESS_TOKEN } :=
  C5_thumbnail_upstream_request "photos/x.jpg" _ (by decide)

/-- C6: an HTTP-level manifest fetch error with code c and reason r yields
exactly the inline error fragment as body, with the framework's default
success status (200), not an error status. -/
theorem C6_albums_http_error_fragment (c : Nat) (r : String) :
    albumsGet (FetchResult.httpError c r) =
      Except.ok (AlbumsResult.errorPage 200
        ("<h3>Error!</h3><div>Failed to fetch albums list (http " ++
          toString c ++ ": " ++ r ++ ")</div>")) := rfl

/-- C7: the icon fields derived for an album from substring matches on its
url: Dropbox branding when it contains dropbox.com, Google+ branding when
it instead contains plus.google.com, and otherwise no icon field is set. -/
theorem C7_albums_icon_selection (a : Album) (u : String) (h : a.url = some u) :
    (containsSub "dropbox.com" u = true →
      processAlbum a = Except.ok
        { coverPass a with icon := some "/images/dropbox-icon.png"
                           icon_alt := some "Dropbox"
                           icon_height := some "40px" }) ∧
    (containsSub "dropbox.com" u = false → containsSub "plus.google.com" u = true →
      processAlbum a = Except.ok
        { coverPass a with icon := some "/images/gplus-icon.svg"
                           icon_alt := some "Google+"
                           icon_height := some "32px" }) ∧
    (containsSub "dropbox.com" u = false → containsSub "plus.google.com" u = false →
      processAlbum a = Except.ok (coverPass a) ∧
      (coverPass a).icon = a.icon ∧ (coverPass a).icon_alt = a.icon_alt ∧
      (coverPass a).icon_height = a.icon_height) := by
  have hu : (coverPass a).url = some u := by rw [coverPass_url, h]
  refine ⟨?_, ?_, ?_⟩
  · intro h1
    unfold processAlbum
    rw [hu]
    unfold setIcons
    simp [h1]
  · intro h1 h2
    unfold processAlbum
    rw [hu]
    unfold setIcons
    simp [h1, h2]
  · intro h1 h2
    refine ⟨?_, coverPass_icons a⟩
    unfold processAlbum
    rw [hu]
    unfold setIcons
    simp [h1, h2]

/-- C7 witness: a Dropbox url gets Dropbox branding, a Google+ url gets
Google+ branding, and any other url leaves the icon fields unset. -/
theorem C7_albums_icon_selection_witness :
    processAlbum { url := some "https://www.dropbox.com/sh/q", cover_path := none } =
      Except.ok { url := some "https://www.dropbox.com/sh/q", cover_path := none
                  icon := some "/images/dropbox-icon.png"
                  icon_alt := some "Dropbox", icon_height := some "40px" } ∧
    processAlbum { url := some "https://plus.google.com/ph", cover_path := none } =
      Except.ok { url := some "https://plus.google.com/ph", cover_path := none
                  icon := some "/images/gplus-icon.svg"
                  icon_alt := some "Google+", icon_height := some "32px" } ∧
    processAlbum { url := some "https://example.org/a", cover_path := none } =
      Except.ok { url := some "https://example.org/a", cover_path := none } :=
  ⟨(C7_albums_icon_selection _ _ rfl).1 (by decide),
   (C7_albums_icon_selection _ _ rfl).2.1 (by decide) (by decide),
   ((C7_albums_icon_selection _ _ rfl).2.2 (by decide) (by decide)).1⟩

/-- C8: an album with a cover_path gets cover_url equal to the thumbnail
route's path, then "?path=", then the quoted cover_path; an album without
cover_path keeps its cover_url absent; the icon branch never changes
cover_url; and quoting percent-encodes spaces while preserving slashes. -/
theorem C8_albums_cover_url (a : Album) (u : String) (h : a.url = some u) :
    (∀ cp, a.cover_path = some cp →
      (coverPass a).cover_url = some (thumbnailRoutePath ++ "?path=" ++ quote cp)) ∧
    (a.cover_path = none → (coverPass a).cover_url = a.cover_url) ∧
    processAlbum a = Except.ok (setIcons u (coverPass a)) ∧
    (∀ u2 b, (setIcons u2 b).cover_url = b.cover_url) ∧
    quote "photos/a b.jpg" = "photos/a%20b.jpg" := by
  have hu : (coverPass a).url = some u := by rw [coverPass_url, h]
  refine ⟨?_, ?_, ?_, fun u2 b => setIcons_cover_url u2 b, by decide⟩
  · intro cp hcp
    unfold coverPass
    rw [hcp]
  · intro hcp
    unfold coverPass
    rw [hcp]
  · unfold processAlbum
    rw [hu]

/-- C8 witness: the derived cover_url for the spec's example
cover_path "photos/a b.jpg", with the space percent-encoded and the slash
preserved. -/
theorem C8_albums_cover_url_witness :
    (coverPass { url := some "u", cover_path := some "photos/a b.jpg" }).cover_url =
      some (thumbnailRoutePath ++ "?path=" ++ quote "photos/a b.jpg") ∧
    (coverPass { url := some "u", cover_path := some "photos/a b.jpg" }).cover_url =
      some "/albums/thumbnail?path=photos/a%20b.jpg" :=
  ⟨(C8_albums_cover_url _ "u" rfl).1 "photos/a b.jpg" rfl,
   (C8_albums_cover_url _ "u" rfl).1 "photos/a b.jpg" rfl⟩

/-- C9: the scope guard is a bare literal check on the first six
characters: every path starting with "photos" — "photosecrets/x" and
"photos/../other" included — passes, and the upstream fetch is issued for
the quoted, slash-preserving path. -/
theorem C9_thumbnail_guard_literal_only (p : String)
    (upstream : UpstreamRequest → FetchResponse)
    (h : strStartsWith p "photos" = true) :
    (thumbnailGet (some p) upstream).upstreamRequest = some (thumbnailRequest p) ∧
    (thumbnailRequest p).url = THUMBNAIL_BASE ++ quote p ++ "?size=l" ∧
    quoteChar '/' = "/" :=
  ⟨thumbnailGet_request p upstream h, rfl, by decide⟩

/-- C9 witness: the guard passes and the fetch is issued both for
"photosecrets/x" and for "photos/../other". -/
theorem C9_thumbnail_guard_literal_only_witness :
    ((thumbnailGet (some "photosecrets/x")
        (fun _ => { status_code := 404, contentType := "", content := [] })).upstreamRequest =
        some (thumbnailRequest "photosecrets/x") ∧
      (thumbnailRequest "photosecrets/x").url =
        THUMBNAIL_BASE ++ quote "photosecrets/x" ++ "?size=l" ∧
      quoteChar '/' = "/") ∧
    ((thumbnailGet (some "photos/../other")
        (fun _ => { status_code := 404, contentType := "", content := [] })).upstreamRequest =
        some (thumbnailRequest "photos/../other") ∧
      (thumbnailRequest "photos/../other").url =
        THUMBNAIL_BASE ++ quote "photos/../other" ++ "?size=l" ∧
      quoteChar '/' = "/") :=
  ⟨C9_thumbnail_guard_literal_only "photosecrets/x" _ (by decide),
   C9_thumbnail_guard_literal_only "photos/../other" _ (by decide)⟩

/-- On a successful manifest fetch the handler is the loop followed by the
render. -/
lemma albumsGet_ok_eq (cfg : Config) :
    albumsGet (FetchResult.ok cfg) =
      match processAlbums cfg.albums with
      | Except.error e => Except.error e
      | Except.ok l => Except.ok (AlbumsResult.page 200 { albums := l }) := rfl

/-- C10: the derived-field pass reads url unconditionally: the albums
request completes without an uncaught exception exactly when every album
of the manifest has a url key, and otherwise it fails with the uncaught
KeyError instead of producing a page or an error fragment. -/
theorem C10_albums_url_required (cfg : Config) :
    ((∃ r, albumsGet (FetchResult.ok cfg) = Except.ok r) ↔
      ∀ a ∈ cfg.albums, a.url.isSome) ∧
    ((¬ ∀ a ∈ cfg.albums, a.url.isSome) →
      albumsGet (FetchResult.ok cfg) = Except.error "KeyError: url") := by
  constructor
  · rw [← processAlbums_ok_iff]
    rw [albumsGet_ok_eq]
    constructor
    · rintro ⟨r, hr⟩
      rcases hpr : processAlbums cfg.albums with e | l2
      · rw [hpr] at hr
        exact absurd hr (by simp)
      · exact ⟨l2, rfl⟩
    · rintro ⟨l2, hl2⟩
      exact ⟨AlbumsResult.page 200 { albums := l2 }, by rw [hl2]⟩
  · intro hn
    rw [albumsGet_ok_eq]
    rw [processAlbums_error cfg.albums hn]

/-- C10 witness: a one-album manifest without url fails with the KeyError,
and a one-album manifest with url succeeds. -/
theorem C10_albums_url_required_witness :
    albumsGet (FetchResult.ok { albums := [{ url := none, cover_path := none }] }) =
      Except.error "KeyError: url" ∧
    (∃ r, albumsGet (FetchResult.ok { albums := [{ url := some "x", cover_path := none }] }) =
      Except.ok r) :=
  ⟨(C10_albums_url_required _).2 (by decide),
   (C10_albums_url_required _).1.mpr (by decide)⟩
